import Mathlib

set_option linter.unusedVariables false

/-!
Shallow embedding of `src/main.py` of vscan-http-request-smuggler.

The program is a linear script: validate a URL, then run three HTTP
request-smuggling probes (CL.TE, TE.CL, TE.TE), each of which merges
optional caller-supplied JSON headers into a fixed header dict and calls
`send_request`, which parses headers, performs one HTTP request via the
`requests` library with redirects disabled, and returns
`(status_code, headers, text)` or an empty result on failure.

External library calls are abstracted as parameters:
  * the HTTP transport (`requests.request`) is a function from the request
    arguments to an outcome (a response, a `RequestException`, or some
    other exception);
  * `json.loads` is a function from strings to an outcome (a decoded
    header dict, a `JSONDecodeError`, or a value on which `dict.update`
    raises, e.g. a decoded integer).
Everything else is translated directly from the source.  Observable
behaviour is reified as a trace of events: an event for each invocation
of `send_request` and an event for each actual HTTP request handed to the
transport.
-/

/-- Python dict of HTTP headers, as an association list in insertion order. -/
abbrev HeaderMap := List (String × String)

/-- Python `d[k]`: value of the first (and in a dict, only) entry with key `k`. -/
def HeaderMap.find : HeaderMap → String → Option String
  | [], _ => none
  | (k0, v0) :: rest, k => if k0 = k then some v0 else HeaderMap.find rest k

/-- Python `d[k] = v` on a dict: replace the value in place if the key is
present, otherwise append the new entry at the end. -/
def updateOne : HeaderMap → String → String → HeaderMap
  | [], k, v => [(k, v)]
  | (k0, v0) :: rest, k, v =>
    if k0 = k then (k0, v) :: rest else (k0, v0) :: updateOne rest k v

/-- Python `base.update(upd)` (src/main.py lines 86, 112, 137): fold the
entries of `upd` into `base`, later keys overriding earlier values. -/
def HeaderMap.update (base upd : HeaderMap) : HeaderMap :=
  upd.foldl (fun b p => updateOne b p.1 p.2) base

/-! ## URL validation (src/main.py lines 24-32, `is_valid_url`)

`urllib.parse.urlparse` is modelled for the two components the script
reads, `scheme` and `netloc`, following CPython `urllib/parse.py`:
left-strip C0-control/space characters, remove tab/CR/LF, split off a
scheme `[A-Za-z][A-Za-z0-9+.-]*` before a colon, and if the remainder
starts with `//` take the netloc up to the first `/`, `?` or `#`;
mismatched square brackets in the netloc raise `ValueError`. -/

/-- Characters stripped from the front of a URL by CPython's `urlsplit`
(WHATWG C0 control or space). -/
def isC0OrSpace (c : Char) : Bool := c.val ≤ 32

/-- Characters removed anywhere in a URL by CPython's `urlsplit`. -/
def isUnsafeUrlByte (c : Char) : Bool := c = '\t' || c = '\r' || c = '\n'

/-- Cleanup CPython's `urlsplit` applies before parsing. -/
def pyUrlClean (s : String) : List Char :=
  (s.toList.dropWhile isC0OrSpace).filter (fun c => !isUnsafeUrlByte c)

/-- Characters allowed in a URL scheme after the first. -/
def schemeChar (c : Char) : Bool := c.isAlphanum || c = '+' || c = '-' || c = '.'

/-- Split a character list at the first colon, if any. -/
def breakAtColon : List Char → Option (List Char × List Char)
  | [] => none
  | c :: cs =>
    if c = ':' then some ([], cs)
    else (breakAtColon cs).map (fun p => (c :: p.1, p.2))

/-- Scheme extraction of `urlsplit`: a nonempty run of scheme characters
starting with a letter, before a colon; otherwise no scheme and the URL is
left whole. Returns (scheme, remainder). -/
def splitScheme (l : List Char) : List Char × List Char :=
  match breakAtColon l with
  | some (c :: pre, post) =>
    if c.isAlpha && (c :: pre).all schemeChar then ((c :: pre).map Char.toLower, post)
    else ([], l)
  | _ => ([], l)

/-- Netloc extraction of `urlsplit`: if the remainder starts with `//`,
the netloc runs up to the first `/`, `?` or `#`. -/
def splitNetloc : List Char → List Char
  | '/' :: '/' :: rest => rest.takeWhile (fun c => !(c = '/' || c = '?' || c = '#'))
  | _ => []

/-- Outcome of `urlparse` as used by `is_valid_url`: the scheme and netloc
components, or a `ValueError` (raised for mismatched brackets in the netloc). -/
inductive UrlParseResult
  | ok (scheme netloc : String)
  | valErr
deriving DecidableEq

/-- Model of `urllib.parse.urlparse(url)` restricted to the `scheme` and
`netloc` attributes, the only ones `is_valid_url` reads. -/
def urlparse_sn (url : String) : UrlParseResult :=
  let l := pyUrlClean url
  let sr := splitScheme l
  let netloc := splitNetloc sr.2
  if (netloc.contains '[' && !netloc.contains ']')
      || (netloc.contains ']' && !netloc.contains '[') then .valErr
  else .ok (String.mk sr.1) (String.mk netloc)

/-- Model of `is_valid_url` (src/main.py lines 24-32):
`all([result.scheme, result.netloc])` under Python truthiness (a string is
truthy iff nonempty), with any exception from parsing mapped to `False`. -/
def is_valid_url (url : String) : Bool :=
  match urlparse_sn url with
  | .ok scheme netloc => !(scheme == "") && !(netloc == "")
  | .valErr => false

/-! ## The request sender (src/main.py lines 34-70, `send_request`) -/

/-- The `headers` argument of `send_request`: Python `None`, a string, or a dict. -/
inductive PyHeaders
  | pnone
  | pstr (s : String)
  | pdict (m : HeaderMap)
deriving DecidableEq

/-- Python truthiness of the `headers` argument (line 40 `if headers:`). -/
def PyHeaders.truthy : PyHeaders → Bool
  | .pnone => false
  | .pstr s => s != ""
  | .pdict m => !m.isEmpty

/-- Arguments of one call to `requests.request` (src/main.py line 55). -/
structure TransportCall where
  url : String
  method : String
  data : Option String
  headers : Option HeaderMap
  timeout : Nat
  allowRedirects : Bool
deriving DecidableEq

/-- Outcome of one call to `requests.request`: a response, a
`requests.exceptions.RequestException`, or any other exception. -/
inductive TransportOutcome
  | ok (status : Nat) (respHeaders : HeaderMap) (body : String)
  | reqExc
  | otherExc

/-- Abstracted HTTP transport (the `requests` library). -/
abbrev Transport := TransportCall → TransportOutcome

/-- Outcome of `json.loads` on a header string: a decoded JSON object (a
header dict), a `json.JSONDecodeError`, or a decoded non-object value on
which a later `dict.update` raises (e.g. a number). -/
inductive JOutcome
  | jmap (m : HeaderMap)
  | jerr
  | jbad

/-- Abstracted `json.loads` restricted to the classification above. -/
abbrev JsonParse := String → JOutcome

/-- Value returned by `send_request`: the `(status_code, headers, text)`
triple of line 63, the `(None, None, None)` of lines 67 and 70, or the
two-element `(None, None)` of line 46. -/
inductive SendResult
  | triple (status : Nat) (respHeaders : HeaderMap) (body : String)
  | noneTriple
  | nonePair
deriving DecidableEq

/-- Observable events of a run: an invocation of `send_request` with its
arguments, and an actual HTTP request handed to the transport. -/
inductive Event
  | sendCall (url method : String) (data : Option String) (headers : PyHeaders) (timeout : Nat)
  | httpCall (c : TransportCall)
deriving DecidableEq

/-- Lines 55-63 of src/main.py: perform the HTTP request with
`allow_redirects=False`, then `raise_for_status()` (an `HTTPError`, a
`RequestException`, for any 4xx or 5xx status), returning the triple on
success and `(None, None, None)` on any caught exception. -/
def doRequest (t : Transport) (url method : String) (data : Option String)
    (hs : Option HeaderMap) (timeout : Nat) : SendResult × List Event :=
  let call : TransportCall := ⟨url, method, data, hs, timeout, false⟩
  match t call with
  | .ok status rh body =>
    if 400 ≤ status ∧ status < 600 then (.noneTriple, [.httpCall call])
    else (.triple status rh body, [.httpCall call])
  | .reqExc => (.noneTriple, [.httpCall call])
  | .otherExc => (.noneTriple, [.httpCall call])

/-- Model of `send_request` (src/main.py lines 34-70).  When `headers` is
truthy it is passed to `json.loads` (line 43): for a string this yields a
dict, a `JSONDecodeError` (caught, returning the two-element `(None, None)`
of line 46), or a non-dict value (on which `requests` raises while
preparing the request, caught by the generic handler of line 68); for a
dict, `json.loads` raises `TypeError`, which the handler of line 44 does
not catch and the generic `except Exception` of line 68 does, so
`(None, None, None)` is returned without any HTTP request being made. -/
def send_request (t : Transport) (jp : JsonParse) (url method : String)
    (data : Option String) (headers : PyHeaders) (timeout : Nat)
    (verbose : Bool) : SendResult × List Event :=
  let ev : Event := .sendCall url method data headers timeout
  let rc : SendResult × List Event :=
    if headers.truthy then
      match headers with
      | .pstr s =>
        match jp s with
        | .jerr => (.nonePair, [])
        | .jmap m => doRequest t url method data (some m) timeout
        | .jbad => (.noneTriple, [])
      | .pdict _ => (.noneTriple, [])
      | .pnone => (.noneTriple, [])
    else
      match headers with
      | .pnone => doRequest t url method data none timeout
      | .pdict m => doRequest t url method data (some m) timeout
      | .pstr _ => (.noneTriple, [])
  (rc.1, ev :: rc.2)

/-! ## The scan (src/main.py lines 72-153, `detect_http_smuggling`) -/

/-- Fixed CL.TE probe headers (src/main.py lines 78-81). -/
def clTeHeaders : HeaderMap := [("Content-Length", "41"), ("Transfer-Encoding", "chunked")]

/-- Fixed TE.CL probe headers (src/main.py lines 103-106). -/
def teClHeaders : HeaderMap := [("Transfer-Encoding", "chunked"), ("Content-Length", "100")]

/-- Fixed TE.TE probe headers (src/main.py lines 129-131). -/
def teTeHeaders : HeaderMap := [("Transfer-Encoding", "chunked, chunked")]

/-- Fixed CL.TE probe body (src/main.py line 91). -/
def clTeData : String := "0\r\n\r\nGET / HTTP/1.1\r\nX-Foo: bar\r\n\r\n"

/-- Fixed TE.CL probe body (src/main.py line 117). -/
def teClData : String :=
  "5c\r\nGET / HTTP/1.1\r\nHost: example.com\r\nContent-Length: 10\r\nX-Foo: bar\r\n\r\n0\r\n\r\n"

/-- Fixed TE.TE probe body (src/main.py line 142). -/
def teTeData : String := "0\r\n\r\nGET / HTTP/1.1\r\nX-Foo: bar\r\n\r\n"

/-- The sentinel substring searched for in response bodies. -/
def sentinel : String := "X-Foo: bar"

/-- Python `needle in haystack` on strings. -/
def pyInStr (needle haystack : String) : Bool :=
  needle == "" || (haystack.splitOn needle).length != 1

/-- Result of a Python computation that may raise an uncaught exception. -/
inductive PyResult (α : Type)
  | val (a : α)
  | exc
deriving DecidableEq

/-- Outcome of the per-probe custom-header merge (lines 82-89, 108-115,
133-140): the merged dict, an abort of the whole scan (`return False` on
`JSONDecodeError`), or an uncaught exception (from `dict.update` on a
decoded non-object value). -/
inductive MergeOutcome
  | mok (m : HeaderMap)
  | mabort
  | mraise

/-- Per-probe custom-header handling: when the raw `headers` argument is
truthy, re-parse it with `json.loads` and merge the result into the
probe's fixed dict, caller keys overriding fixed keys. -/
def mergeCustom (jp : JsonParse) (headers : Option String) (fixed : HeaderMap) : MergeOutcome :=
  match headers with
  | none => .mok fixed
  | some s =>
    if s == "" then .mok fixed
    else
      match jp s with
      | .jmap m => .mok (HeaderMap.update fixed m)
      | .jerr => .mabort
      | .jbad => .mraise

/-- Lines 95-100 (and 120-125, 145-150): a probe counts as detected when
the status code and response text are truthy and the text contains the
sentinel. -/
def detected : SendResult → Bool
  | .triple status _ body => (status != 0) && (body != "") && pyInStr sentinel body
  | _ => false

/-- Model of `detect_http_smuggling` (src/main.py lines 72-153): three
probes in order CL.TE, TE.CL, TE.TE; each merges the custom headers into
its fixed dict (`return False` on a `JSONDecodeError`, uncaught exception
on a non-object decode), calls `send_request`, and returns `True` on a
detected sentinel.  Unpacking the two-element result of line 46 into
three variables would raise `ValueError` (modelled as `.exc`).  The
`data` parameter of the function is accepted but never used.  The second
component is the event trace. -/
def detect_http_smuggling (t : Transport) (jp : JsonParse) (url method : String)
    (data : Option String) (headers : Option String) (timeout : Nat)
    (verbose : Bool) : PyResult Bool × List Event :=
  match mergeCustom jp headers clTeHeaders with
  | .mabort => (.val false, [])
  | .mraise => (.exc, [])
  | .mok h1 =>
    let r1 := send_request t jp url method (some clTeData) (.pdict h1) timeout verbose
    match r1.1 with
    | .nonePair => (.exc, r1.2)
    | _ =>
      if detected r1.1 then (.val true, r1.2)
      else
        match mergeCustom jp headers teClHeaders with
        | .mabort => (.val false, r1.2)
        | .mraise => (.exc, r1.2)
        | .mok h2 =>
          let r2 := send_request t jp url method (some teClData) (.pdict h2) timeout verbose
          match r2.1 with
          | .nonePair => (.exc, r1.2 ++ r2.2)
          | _ =>
            if detected r2.1 then (.val true, r1.2 ++ r2.2)
            else
              match mergeCustom jp headers teTeHeaders with
              | .mabort => (.val false, r1.2 ++ r2.2)
              | .mraise => (.exc, r1.2 ++ r2.2)
              | .mok h3 =>
                let r3 := send_request t jp url method (some teTeData) (.pdict h3) timeout verbose
                match r3.1 with
                | .nonePair => (.exc, r1.2 ++ r2.2 ++ r3.2)
                | _ =>
                  if detected r3.1 then (.val true, r1.2 ++ r2.2 ++ r3.2)
                  else (.val false, r1.2 ++ r2.2 ++ r3.2)

/-- Model of `main` (src/main.py lines 155-175): exit 1 with no activity
when the URL is invalid; otherwise run the scan, exiting 1 if it raises
and 0 on completion (the process falls off the end of `main`, so the exit
status is 0 whether or not a vulnerability was reported). -/
def main_py (t : Transport) (jp : JsonParse) (url method : String)
    (data headers : Option String) (timeout : Nat) (verbose : Bool) :
    Nat × List Event :=
  if is_valid_url url then
    match detect_http_smuggling t jp url method data headers timeout verbose with
    | (.val _, tr) => (0, tr)
    | (.exc, tr) => (1, tr)
  else (1, [])

/-! ## Concrete transports and parsers used as test fixtures -/

/-- Transport that echoes the sentinel in every response body. -/
def echoTransport : Transport := fun _ => .ok 200 [] "X-Foo: bar"

/-- Transport that returns a plain 200 response for every request. -/
def okTransport : Transport := fun _ => .ok 200 [] "ok"

/-- Transport on which every request raises a `RequestException`. -/
def errTransport : Transport := fun _ => .reqExc

/-- Transport that answers every request with a 404 whose body contains the sentinel. -/
def err404Transport : Transport := fun _ => .ok 404 [] "X-Foo: bar"

/-- JSON oracle on which every string fails to decode. -/
def jpErr : JsonParse := fun _ => .jerr

/-- JSON oracle that decodes every string to a one-entry header object. -/
def jpCustom : JsonParse := fun _ => .jmap [("X-Custom-Header", "value")]

/-- JSON oracle that decodes every string to an object overriding a fixed probe key. -/
def jpOverride : JsonParse := fun _ => .jmap [("Transfer-Encoding", "identity")]

/-! ## Helper lemmas -/

/-- A single-key dict update never produces an empty dict. -/
theorem updateOne_ne_nil (base : HeaderMap) (k v : String) : updateOne base k v ≠ [] := by
  cases base with
  | nil => simp [updateOne]
  | cons p rest =>
    obtain ⟨k0, v0⟩ := p
    by_cases h : k0 = k <;> simp [updateOne, h]

/-- Dict update of a nonempty dict stays nonempty. -/
theorem update_ne_nil (m : HeaderMap) : ∀ base : HeaderMap, base ≠ [] →
    HeaderMap.update base m ≠ [] := by
  induction m with
  | nil => intro base h; exact h
  | cons p rest ih =>
    intro base _
    exact ih (updateOne base p.1 p.2) (updateOne_ne_nil base p.1 p.2)

/-- Looking up the updated key finds the new value. -/
theorem find_updateOne_self (base : HeaderMap) (k v : String) :
    HeaderMap.find (updateOne base k v) k = some v := by
  induction base with
  | nil => simp [updateOne, HeaderMap.find]
  | cons p rest ih =>
    obtain ⟨k0, v0⟩ := p
    by_cases h : k0 = k
    · subst h; simp [updateOne, HeaderMap.find]
    · simp [updateOne, HeaderMap.find, h, ih]

/-- Looking up any other key is unchanged by a single-key update. -/
theorem find_updateOne_other (base : HeaderMap) (k v k' : String) (h : k' ≠ k) :
    HeaderMap.find (updateOne base k v) k' = HeaderMap.find base k' := by
  induction base with
  | nil => simp [updateOne, HeaderMap.find, Ne.symm h]
  | cons p rest ih =>
    obtain ⟨k0, v0⟩ := p
    by_cases h0 : k0 = k
    · subst h0; simp [updateOne, HeaderMap.find, Ne.symm h]
    · by_cases h1 : k0 = k' <;> simp [updateOne, HeaderMap.find, h0, h1, ih, h]

/-- Keys absent from the update are looked up in the base dict. -/
theorem find_update_not_mem (m : HeaderMap) : ∀ (base : HeaderMap) (k : String),
    (∀ q ∈ m, q.1 ≠ k) →
    HeaderMap.find (HeaderMap.update base m) k = HeaderMap.find base k := by
  induction m with
  | nil => intro base k _; rfl
  | cons p rest ih =>
    intro base k h
    have step : HeaderMap.update base (p :: rest)
        = HeaderMap.update (updateOne base p.1 p.2) rest := rfl
    rw [step, ih _ _ (fun q hq => h q (List.mem_cons_of_mem _ hq)),
      find_updateOne_other base p.1 p.2 k (Ne.symm (h p (List.mem_cons_self p rest)))]

/-- Keys present in the update (with distinct keys, as in a decoded JSON
object) are looked up to the updated value: caller keys override. -/
theorem find_update_mem (m : HeaderMap) : ∀ (base : HeaderMap) (k v : String),
    (m.map Prod.fst).Nodup → (k, v) ∈ m →
    HeaderMap.find (HeaderMap.update base m) k = some v := by
  induction m with
  | nil => intro base k v _ hm; cases hm
  | cons p rest ih =>
    intro base k v hd hm
    obtain ⟨k1, v1⟩ := p
    simp only [List.map_cons, List.nodup_cons] at hd
    have step : HeaderMap.update base ((k1, v1) :: rest)
        = HeaderMap.update (updateOne base k1 v1) rest := rfl
    rw [step]
    rcases List.mem_cons.mp hm with heq | hmem
    · cases heq
      have hnot : ∀ q ∈ rest, q.1 ≠ k := by
        intro q hq hqq
        exact hd.1 (hqq ▸ List.mem_map_of_mem Prod.fst hq)
      rw [find_update_not_mem rest _ _ hnot, find_updateOne_self]
    · exact ih _ _ _ hd.2 hmem

/-- With a truthy dict as its `headers` argument, `send_request` performs
no HTTP request and returns `(None, None, None)`: line 43 applies
`json.loads` to the dict, raising `TypeError`, caught only by the generic
handler of line 68. -/
theorem send_request_pdict (t : Transport) (jp : JsonParse) (url method : String)
    (data : Option String) (m : HeaderMap) (timeout : Nat) (verbose : Bool)
    (h : m ≠ []) :
    send_request t jp url method data (.pdict m) timeout verbose
      = (.noneTriple, [.sendCall url method data (.pdict m) timeout]) := by
  cases m with
  | nil => exact absurd rfl h
  | cons p l => rfl

/-- With no custom header string, the scan attempts the three probes in
order CL.TE, TE.CL, TE.TE with their fixed header dicts and bodies, no
HTTP request reaches the transport, and the result is `False`. -/
theorem detect_headers_none (t : Transport) (jp : JsonParse) (url method : String)
    (data : Option String) (timeout : Nat) (verbose : Bool) :
    detect_http_smuggling t jp url method data none timeout verbose
      = (.val false,
         [.sendCall url method (some clTeData) (.pdict clTeHeaders) timeout,
          .sendCall url method (some teClData) (.pdict teClHeaders) timeout,
          .sendCall url method (some teTeData) (.pdict teTeHeaders) timeout]) := rfl

/-- An empty custom header string is falsy, so the scan behaves as with none. -/
theorem detect_headers_empty (t : Transport) (jp : JsonParse) (url method : String)
    (data : Option String) (timeout : Nat) (verbose : Bool) :
    detect_http_smuggling t jp url method data (some "") timeout verbose
      = (.val false,
         [.sendCall url method (some clTeData) (.pdict clTeHeaders) timeout,
          .sendCall url method (some teClData) (.pdict teClHeaders) timeout,
          .sendCall url method (some teTeData) (.pdict teTeHeaders) timeout]) := rfl

/-- When the custom header string fails to decode, the scan returns
`False` at the first probe's merge step with an empty event trace: no
probe invokes `send_request` at all. -/
theorem detect_headers_jerr (t : Transport) (jp : JsonParse) (url method : String)
    (data : Option String) (s : String) (timeout : Nat) (verbose : Bool)
    (hs : s ≠ "") (hj : jp s = .jerr) :
    detect_http_smuggling t jp url method data (some s) timeout verbose
      = (.val false, []) := by
  have hb : (s == "") = false := by simp [hs]
  simp [detect_http_smuggling, mergeCustom, hb, hj]

/-- When the custom header string decodes to a non-object value,
`dict.update` raises at the first probe and the exception escapes the scan. -/
theorem detect_headers_jbad (t : Transport) (jp : JsonParse) (url method : String)
    (data : Option String) (s : String) (timeout : Nat) (verbose : Bool)
    (hs : s ≠ "") (hj : jp s = .jbad) :
    detect_http_smuggling t jp url method data (some s) timeout verbose
      = (.exc, []) := by
  have hb : (s == "") = false := by simp [hs]
  simp [detect_http_smuggling, mergeCustom, hb, hj]

/-- When the custom header string decodes to a header object, each probe
passes its merged dict to `send_request`, which performs no HTTP request,
and the scan returns `False` after attempting all three probes. -/
theorem detect_headers_jmap (t : Transport) (jp : JsonParse) (url method : String)
    (data : Option String) (s : String) (timeout : Nat) (verbose : Bool)
    (m : HeaderMap) (hs : s ≠ "") (hj : jp s = .jmap m) :
    detect_http_smuggling t jp url method data (some s) timeout verbose
      = (.val false,
         [.sendCall url method (some clTeData) (.pdict (HeaderMap.update clTeHeaders m)) timeout,
          .sendCall url method (some teClData) (.pdict (HeaderMap.update teClHeaders m)) timeout,
          .sendCall url method (some teTeData) (.pdict (HeaderMap.update teTeHeaders m)) timeout]) := by
  have hb : (s == "") = false := by simp [hs]
  have n1 : HeaderMap.update clTeHeaders m ≠ [] :=
    update_ne_nil m clTeHeaders (by simp [clTeHeaders])
  have n2 : HeaderMap.update teClHeaders m ≠ [] :=
    update_ne_nil m teClHeaders (by simp [teClHeaders])
  have n3 : HeaderMap.update teTeHeaders m ≠ [] :=
    update_ne_nil m teTeHeaders (by simp [teTeHeaders])
  simp [detect_http_smuggling, mergeCustom, hb, hj,
    send_request_pdict t jp url method (some clTeData) (HeaderMap.update clTeHeaders m) timeout verbose n1,
    send_request_pdict t jp url method (some teClData) (HeaderMap.update teClHeaders m) timeout verbose n2,
    send_request_pdict t jp url method (some teTeData) (HeaderMap.update teTeHeaders m) timeout verbose n3,
    detected]

/-! ## Claim theorems -/

/-- C1: the claim says that against a transport that echoes the sentinel
"X-Foo: bar" in every response body, the scan returns `True` after the
first probe.  Evaluating the code at that input: with no custom header
string (and likewise with a valid JSON one), the scan attempts all three
probes, hands no request at all to the transport (there is no `httpCall`
event), and returns `False` — `send_request` applies `json.loads` to each
probe's header dict, raising an uncaught-by-line-44 `TypeError` that the
generic handler turns into `(None, None, None)`. -/
theorem c1_echo_transport_scan_reports_false :
    detect_http_smuggling echoTransport jpErr "http://example.com" "GET" none none 10 false
      = (.val false,
         [.sendCall "http://example.com" "GET" (some clTeData) (.pdict clTeHeaders) 10,
          .sendCall "http://example.com" "GET" (some teClData) (.pdict teClHeaders) 10,
          .sendCall "http://example.com" "GET" (some teTeData) (.pdict teTeHeaders) 10])
    ∧ detect_http_smuggling echoTransport jpCustom "http://example.com" "GET" none
        (some "hdrs") 10 false
      = (.val false,
         [.sendCall "http://example.com" "GET" (some clTeData)
            (.pdict (HeaderMap.update clTeHeaders [("X-Custom-Header", "value")])) 10,
          .sendCall "http://example.com" "GET" (some teClData)
            (.pdict (HeaderMap.update teClHeaders [("X-Custom-Header", "value")])) 10,
          .sendCall "http://example.com" "GET" (some teTeData)
            (.pdict (HeaderMap.update teTeHeaders [("X-Custom-Header", "value")])) 10]) :=
  ⟨rfl, rfl⟩

/-- C2: for every call to `send_request` whose `headers` argument is a
nonempty header dict (as in every probe), no HTTP request is performed and
the result is `(None, None, None)` — not one request with the response
triple, as claimed.  By contrast, with `headers=None` the success path
does perform exactly one request with redirects disabled and returns the
response triple, which is what the claim describes. -/
theorem c2_header_mapping_performs_no_request :
    (∀ (t : Transport) (jp : JsonParse) (url method : String) (data : Option String)
        (m : HeaderMap) (timeout : Nat) (verbose : Bool), m ≠ [] →
       send_request t jp url method data (.pdict m) timeout verbose
         = (.noneTriple, [.sendCall url method data (.pdict m) timeout]))
    ∧ (∀ (t : Transport) (jp : JsonParse) (url method : String) (data : Option String)
        (timeout : Nat) (verbose : Bool) (st : Nat) (rh : HeaderMap) (b : String),
       t ⟨url, method, data, none, timeout, false⟩ = .ok st rh b →
       ¬(400 ≤ st ∧ st < 600) →
       send_request t jp url method data .pnone timeout verbose
         = (.triple st rh b,
            [.sendCall url method data .pnone timeout,
             .httpCall ⟨url, method, data, none, timeout, false⟩])) := by
  constructor
  · intro t jp url method data m timeout verbose h
    exact send_request_pdict t jp url method data m timeout verbose h
  · intro t jp url method data timeout verbose st rh b ht hst
    simp [send_request, PyHeaders.truthy, doRequest, ht, hst]

/-- C2 witness: the first probe's header dict yields no request and the
empty triple; a `None` headers argument yields one request and the triple. -/
theorem c2_witness :
    send_request okTransport jpErr "http://example.com" "GET" (some clTeData)
        (.pdict clTeHeaders) 10 false
      = (.noneTriple,
         [.sendCall "http://example.com" "GET" (some clTeData) (.pdict clTeHeaders) 10])
    ∧ send_request okTransport jpErr "http://example.com" "GET" none .pnone 10 false
      = (.triple 200 [] "ok",
         [.sendCall "http://example.com" "GET" none .pnone 10,
          .httpCall ⟨"http://example.com", "GET", none, none, 10, false⟩]) :=
  ⟨c2_header_mapping_performs_no_request.1 okTransport jpErr "http://example.com" "GET"
     (some clTeData) clTeHeaders 10 false (by decide),
   c2_header_mapping_performs_no_request.2 okTransport jpErr "http://example.com" "GET"
     none 10 false 200 [] "ok" rfl (by decide)⟩

/-- C3 counterexample: with a custom header string that is not valid JSON,
the scan's event trace is empty — no probe invokes `send_request`, so it
is false that "the remaining probes are still run": the whole scan is
aborted with result `False` at the first probe's merge step. -/
theorem c3_counterexample_invalid_json_runs_no_probes :
    detect_http_smuggling echoTransport jpErr "http://example.com" "GET" none
        (some "notjson") 10 false
      = (.val false, []) := rfl

/-- C3 amended: when the caller-supplied custom header string is not valid
JSON, the scan logs an error and returns `False` immediately at the first
probe's header merge; no request is sent for any probe and no further
probes are evaluated. -/
theorem c3_amended_invalid_json_aborts_scan (t : Transport) (jp : JsonParse)
    (url method : String) (data : Option String) (s : String) (timeout : Nat)
    (verbose : Bool) (hs : s ≠ "") (hj : jp s = .jerr) :
    detect_http_smuggling t jp url method data (some s) timeout verbose
      = (.val false, []) :=
  detect_headers_jerr t jp url method data s timeout verbose hs hj

/-- C3 witness: the amended claim at a concrete invalid header string. -/
theorem c3_witness :
    detect_http_smuggling okTransport jpErr "http://example.com" "GET" none
        (some "x") 10 false
      = (.val false, []) :=
  c3_amended_invalid_json_aborts_scan okTransport jpErr "http://example.com" "GET"
    none "x" 10 false (by decide) rfl

/-- C4: the probes are indeed attempted in the fixed order CL.TE, TE.CL,
TE.TE, and when none detects the sentinel all three run with result
`False` — but no probe can ever detect: for every transport and JSON
oracle the scan never returns `True`, because `send_request` destroys
every response (each probe's nonempty header dict makes `json.loads`
raise), so the claimed short-circuit after a positive detection is
unreachable. -/
theorem c4_probe_order_and_never_detects (t : Transport) (jp : JsonParse)
    (url method : String) (data : Option String) (timeout : Nat) (verbose : Bool) :
    detect_http_smuggling t jp url method data none timeout verbose
      = (.val false,
         [.sendCall url method (some clTeData) (.pdict clTeHeaders) timeout,
          .sendCall url method (some teClData) (.pdict teClHeaders) timeout,
          .sendCall url method (some teTeData) (.pdict teTeHeaders) timeout])
    ∧ ∀ headers : Option String,
        (detect_http_smuggling t jp url method data headers timeout verbose).1
          ≠ PyResult.val true := by
  refine ⟨detect_headers_none t jp url method data timeout verbose, ?_⟩
  intro headers
  cases headers with
  | none => rw [detect_headers_none]; simp
  | some s =>
    by_cases he : s = ""
    · subst he; rw [detect_headers_empty]; simp
    · cases hj : jp s with
      | jmap m => rw [detect_headers_jmap t jp url method data s timeout verbose m he hj]; simp
      | jerr => rw [detect_headers_jerr t jp url method data s timeout verbose he hj]; simp
      | jbad => rw [detect_headers_jbad t jp url method data s timeout verbose he hj]; simp

/-- C4 witness: even against the echoing transport with valid custom
headers, the scan does not return `True`. -/
theorem c4_witness :
    (detect_http_smuggling echoTransport jpCustom "http://example.com" "GET" none
        (some "hdrs") 10 false).1
      ≠ PyResult.val true :=
  (c4_probe_order_and_never_detects echoTransport jpCustom "http://example.com" "GET"
    none 10 false).2 (some "hdrs")

/-- C5: the URL validator returns `true` exactly when the string parses
into a URL with both a nonempty scheme and a nonempty network location,
and any parse failure returns `false`; illustrated on a well-formed
absolute URL and on a string with neither scheme nor host.  The validator
is a pure function of the string — no transport appears in its type, so
no network access is performed. -/
theorem c5_is_valid_url_iff :
    (∀ u : String, is_valid_url u = true ↔
       ∃ s n, urlparse_sn u = .ok s n ∧ s ≠ "" ∧ n ≠ "")
    ∧ is_valid_url "http://example.com" = true
    ∧ is_valid_url "not a url" = false
    ∧ is_valid_url "http://[::1" = false := by
  refine ⟨?_, by decide, by decide, by decide⟩
  intro u
  cases h : urlparse_sn u with
  | ok s n =>
    simp [is_valid_url, h]
    constructor
    · rintro ⟨h1, h2⟩; exact ⟨s, n, ⟨rfl, rfl⟩, h1, h2⟩
    · rintro ⟨s', n', ⟨rfl, rfl⟩, h1, h2⟩; exact ⟨h1, h2⟩
  | valErr => simp [is_valid_url, h]

/-- C5 witness: the characterisation applied at a concrete URL. -/
theorem c5_witness :
    is_valid_url "http://example.com" = true ↔
      ∃ s n, urlparse_sn "http://example.com" = .ok s n ∧ s ≠ "" ∧ n ≠ "" :=
  c5_is_valid_url_iff.1 "http://example.com"

/-- C6: the exit code is 0 exactly when the URL validates and the scan
completes without an uncaught exception, regardless of the boolean scan
result; it is 1 when the URL fails validation — and then no event at all
is produced, in particular no network activity — and 1 when the scan
raises. -/
theorem c6_exit_codes (t : Transport) (jp : JsonParse) (url method : String)
    (data headers : Option String) (timeout : Nat) (verbose : Bool) :
    ((main_py t jp url method data headers timeout verbose).1
       = if is_valid_url url = true
            ∧ (detect_http_smuggling t jp url method data headers timeout verbose).1
              ≠ PyResult.exc
         then 0 else 1)
    ∧ (is_valid_url url = false →
        main_py t jp url method data headers timeout verbose = (1, [])) := by
  constructor
  · by_cases hv : is_valid_url url = true
    · rcases hd : detect_http_smuggling t jp url method data headers timeout verbose with ⟨r, tr⟩
      cases r <;> simp [main_py, hv, hd]
    · simp only [Bool.not_eq_true] at hv
      simp [main_py, hv]
  · intro hv
    simp [main_py, hv]

/-- C6 witness: an invalid URL exits 1 with no activity. -/
theorem c6_witness :
    main_py okTransport jpErr "example.com" "GET" none none 10 false = (1, []) :=
  (c6_exit_codes okTransport jpErr "example.com" "GET" none none 10 false).2 (by decide)

/-- C7: when the custom header string is present and decodes to a header
object, each probe hands `send_request` exactly its fixed header dict
merged with the custom headers — the merge is visible in the `sendCall`
arguments, hence happens before sending — and in the merged dict the
caller-supplied keys override fixed keys while untouched fixed keys keep
their values. -/
theorem c7_custom_headers_merged_before_send (t : Transport) (jp : JsonParse)
    (url method : String) (data : Option String) (s : String) (timeout : Nat)
    (verbose : Bool) (m : HeaderMap) (hs : s ≠ "") (hj : jp s = .jmap m) :
    detect_http_smuggling t jp url method data (some s) timeout verbose
      = (.val false,
         [.sendCall url method (some clTeData)
            (.pdict (HeaderMap.update clTeHeaders m)) timeout,
          .sendCall url method (some teClData)
            (.pdict (HeaderMap.update teClHeaders m)) timeout,
          .sendCall url method (some teTeData)
            (.pdict (HeaderMap.update teTeHeaders m)) timeout])
    ∧ (∀ (base : HeaderMap) (k v : String), (m.map Prod.fst).Nodup → (k, v) ∈ m →
         HeaderMap.find (HeaderMap.update base m) k = some v)
    ∧ (∀ (base : HeaderMap) (k : String), (∀ q ∈ m, q.1 ≠ k) →
         HeaderMap.find (HeaderMap.update base m) k = HeaderMap.find base k) :=
  ⟨detect_headers_jmap t jp url method data s timeout verbose m hs hj,
   fun base k v hd hm => find_update_mem m base k v hd hm,
   fun base k h => find_update_not_mem m base k h⟩

/-- C7 witness: a custom header overriding the fixed `Transfer-Encoding`
key of each probe, merged before the send. -/
theorem c7_witness :
    detect_http_smuggling okTransport jpOverride "http://example.com" "GET" none
        (some "hdrs") 10 false
      = (.val false,
         [.sendCall "http://example.com" "GET" (some clTeData)
            (.pdict (HeaderMap.update clTeHeaders [("Transfer-Encoding", "identity")])) 10,
          .sendCall "http://example.com" "GET" (some teClData)
            (.pdict (HeaderMap.update teClHeaders [("Transfer-Encoding", "identity")])) 10,
          .sendCall "http://example.com" "GET" (some teTeData)
            (.pdict (HeaderMap.update teTeHeaders [("Transfer-Encoding", "identity")])) 10]) :=
  (c7_custom_headers_merged_before_send okTransport jpOverride "http://example.com" "GET"
    none "hdrs" 10 false [("Transfer-Encoding", "identity")] (by decide) rfl).1

/-- C8: evaluating `send_request` at its failure modes.  A malformed
header JSON string returns immediately with no HTTP request — but the
value returned is the two-element `(None, None)` of line 46, not the
claimed empty `(status, headers, body)` triple, so a caller unpacking
three values would raise `ValueError`.  A network-level error does return
`(None, None, None)` after the single failed request; nothing is retried
and no exception escapes. -/
theorem c8_failure_mode_results :
    send_request okTransport jpErr "http://example.com" "GET" none
        (.pstr "notjson") 10 false
      = (.nonePair,
         [.sendCall "http://example.com" "GET" none (.pstr "notjson") 10])
    ∧ send_request errTransport jpErr "http://example.com" "GET" none .pnone 10 false
      = (.noneTriple,
         [.sendCall "http://example.com" "GET" none .pnone 10,
          .httpCall ⟨"http://example.com", "GET", none, none, 10, false⟩]) :=
  ⟨rfl, rfl⟩

/-- Helper for C9: when every response the transport produces has a 4xx or
5xx status, `send_request` never returns the response triple — only the
`(None, None, None)` of the exception handlers, or the `(None, None)` of
the malformed-JSON path, on which no request was made at all. -/
theorem send_request_error_status (t : Transport) (jp : JsonParse) (url method : String)
    (data : Option String) (hs : PyHeaders) (timeout : Nat) (verbose : Bool)
    (ht : ∀ c st rh b, t c = .ok st rh b → 400 ≤ st ∧ st < 600) :
    (send_request t jp url method data hs timeout verbose).1 = SendResult.noneTriple
    ∨ (send_request t jp url method data hs timeout verbose).1 = SendResult.nonePair := by
  have hdo : ∀ ohs : Option HeaderMap,
      (doRequest t url method data ohs timeout).1 = SendResult.noneTriple := by
    intro ohs
    unfold doRequest
    cases htc : t ⟨url, method, data, ohs, timeout, false⟩ with
    | ok st rh b => simp [htc, ht _ _ _ _ htc]
    | reqExc => simp [htc]
    | otherExc => simp [htc]
  cases hs with
  | pnone => left; simpa [send_request, PyHeaders.truthy] using hdo none
  | pstr s =>
    by_cases he : s = ""
    · subst he; left; rfl
    · have hb : (s != "") = true := by simp [he]
      cases hj : jp s with
      | jerr => right; simp [send_request, PyHeaders.truthy, hb, hj]
      | jmap m => left; simpa [send_request, PyHeaders.truthy, hb, hj] using hdo (some m)
      | jbad => left; simp [send_request, PyHeaders.truthy, hb, hj]
  | pdict m =>
    cases m with
    | nil => left; simpa [send_request, PyHeaders.truthy] using hdo (some [])
    | cons p l => left; rfl

/-- C9: for a transport every response of which carries a 4xx or 5xx
status, `send_request` never returns the response's status, headers and
body — `raise_for_status` turns such responses into a caught `HTTPError` —
and consequently its result can never count as a detected probe, even when
the error response's body contains the sentinel. -/
theorem c9_error_responses_never_detected (t : Transport) (jp : JsonParse)
    (url method : String) (data : Option String) (hs : PyHeaders) (timeout : Nat)
    (verbose : Bool)
    (ht : ∀ c st rh b, t c = .ok st rh b → 400 ≤ st ∧ st < 600) :
    (∀ (st : Nat) (rh : HeaderMap) (b : String),
       (send_request t jp url method data hs timeout verbose).1
         ≠ SendResult.triple st rh b)
    ∧ detected (send_request t jp url method data hs timeout verbose).1 = false := by
  rcases send_request_error_status t jp url method data hs timeout verbose ht with h | h <;>
    exact ⟨fun st rh b hc => by rw [h] at hc; exact SendResult.noConfusion hc,
           by simp [h, detected]⟩

/-- C9 witness: a 404 response whose body contains the sentinel still
yields an undetected probe. -/
theorem c9_witness :
    detected (send_request err404Transport jpErr "http://example.com" "GET" none
        .pnone 10 false).1 = false :=
  (c9_error_responses_never_detected err404Transport jpErr "http://example.com" "GET"
    none .pnone 10 false
    (by
      intro c st rh b h
      have h' : TransportOutcome.ok 404 [] "X-Foo: bar" = .ok st rh b := h
      injection h' with h1 h2 h3
      subst h1
      exact ⟨by decide, by decide⟩)).2

/-- C10: the scan's `data` parameter (the CLI `--data` value) has no
effect whatsoever — the run is identical for any two values — and the body
handed to the request sender for each probe is exactly that probe's fixed
body string, as the `sendCall` trace shows. -/
theorem c10_data_argument_ignored (t : Transport) (jp : JsonParse) (url method : String)
    (d1 d2 : Option String) (headers : Option String) (timeout : Nat) (verbose : Bool) :
    detect_http_smuggling t jp url method d1 headers timeout verbose
      = detect_http_smuggling t jp url method d2 headers timeout verbose
    ∧ detect_http_smuggling t jp url method d1 none timeout verbose
      = (.val false,
         [.sendCall url method (some clTeData) (.pdict clTeHeaders) timeout,
          .sendCall url method (some teClData) (.pdict teClHeaders) timeout,
          .sendCall url method (some teTeData) (.pdict teTeHeaders) timeout]) :=
  ⟨rfl, detect_headers_none t jp url method d1 timeout verbose⟩
